import Mathlib

/-!
Verification development for the temp-email-cli repository.

The program has two core components:
* `EmailService` (src/src/emailService.js): an HTTP client for the mail.tm
  provider with a retry/backoff loop (`withRetry`), address provisioning
  (`createEmailAddress`), message fetching (`getEmails`, `getEmailContent`)
  with a shared bearer-token header, and deletion calls.
* `StorageService` (second file of src/unnamed/part_000): a JSON-file store
  of address records with expiration handling (`saveAddress`, `getAddresses`,
  `cleanupExpired`, `removeAddress`).

The embedding below is shallow: timestamps are naturals, the HTTP layer is a
family of per-attempt responses passed in as a function, JavaScript
exceptions are `Except`, and the JavaScript `undefined` that a fallen-through
loop can return is `Option.none`.
-/

namespace TempEmail

/-- A thrown JavaScript error as the retry loop observes it: its `message`
and, when it is an axios HTTP error, `error.response?.status`.  A plain
`new Error(...)` has `status? = none`. -/
structure JsError where
  message : String
  status? : Option Nat
deriving Repr, DecidableEq

/-- Observable outcome of one `withRetry` run: the value returned or error
thrown (`none` models the JavaScript `undefined` returned when the `for`
loop never runs, i.e. `maxRetries = 0`), the sequence of waits (ms) taken
between attempts, and how many attempts (API calls) were actually made. -/
structure RetryResult (α : Type) where
  result : Option (Except JsError α)
  delays : List Nat
  calls : Nat
deriving Repr

/-- The body of `EmailService.withRetry` (src/src/emailService.js:54-72):
`for (attempt = 1; attempt <= maxRetries; attempt++)` — try the call; on
success return; on the last attempt throw the aggregated error; otherwise
wait `retryDelay * 2^(attempt-1)` if the error carried HTTP status 429, else
the fixed `retryDelay`, and loop.  `fuel` bounds the structural recursion;
`withRetry` instantiates it with `maxRetries`, which covers every iteration
of the source loop. -/
def withRetryLoop (apiCall : Nat → Except JsError α) (maxRetries retryDelay : Nat) :
    Nat → Nat → RetryResult α
  | _, 0 => ⟨none, [], 0⟩
  | attempt, fuel + 1 =>
    if maxRetries < attempt then ⟨none, [], 0⟩
    else
      match apiCall attempt with
      | .ok v => ⟨some (.ok v), [], 1⟩
      | .error e =>
        if attempt = maxRetries then
          ⟨some (.error ⟨"Operation failed after " ++ toString maxRetries ++
              " attempts: " ++ e.message, none⟩), [], 1⟩
        else
          let d := if e.status? = some 429 then retryDelay * 2 ^ (attempt - 1) else retryDelay
          let rest := withRetryLoop apiCall maxRetries retryDelay (attempt + 1) fuel
          ⟨rest.result, d :: rest.delays, rest.calls + 1⟩

/-- `EmailService.withRetry(apiCall, {maxRetries, retryDelay})`: run the loop
from attempt 1. -/
def withRetry (apiCall : Nat → Except JsError α) (maxRetries retryDelay : Nat) :
    RetryResult α :=
  withRetryLoop apiCall maxRetries retryDelay 1 maxRetries

/-! ## EmailService: provisioning (`createEmailAddress`) -/

/-- Caller-facing error kinds of `createEmailAddress`: the catch block at
src/src/emailService.js:149-165 maps HTTP statuses to dedicated messages and
everything else to the generic network-error message.  Each constructor
carries the user-facing message the code builds. -/
inductive ErrorKind where
  | InvalidAddressFormat
  | RateLimited
  | BadRequest
  | Forbidden
  | ProviderServerError
  | NetworkError (msg : String)
deriving Repr, DecidableEq

/-- The catch block of `createEmailAddress` (src/src/emailService.js:149-165):
`if (error.response) { switch on error.response.status }` else fall through
to the generic message built from `error.message`. -/
def mapCreateError (e : JsError) : ErrorKind :=
  match e.status? with
  | some 422 => .InvalidAddressFormat
  | some 429 => .RateLimited
  | some 400 => .BadRequest
  | some 403 => .Forbidden
  | some 500 => .ProviderServerError
  | _ => .NetworkError ("Failed to create email address: " ++ e.message ++
      ". Please check your internet connection and try again.")

/-- `GET /domains` response body: `none` when `response.data` is not an
array; otherwise the list of elements, each reduced to its `domain` field
(`none` when the element or its `domain` field is absent/falsy as an
object; an empty string models a present-but-falsy `domain`). -/
def DomainsData := Option (List (Option String))

/-- `POST /accounts` response `data`: `none` models a falsy `data`;
otherwise its `id` and `address` fields (an empty `id` models a falsy id,
per the `!accountResponse.data.id` check). -/
structure AccountData where
  id : String
  address : String
deriving Repr, DecidableEq

/-- Per-attempt provider responses: attempt `k` of a retried block observes
`domains k`, and `accounts addr pw k` / `token addr pw k` for the POST
bodies `{address, password}`.  `token` is `POST /token` data reduced to its
`token` field (`.ok none` = falsy `data`, `.ok (some "")` = falsy token
string). -/
structure ProviderEnv where
  domains : Nat → Except JsError DomainsData
  accounts : String → String → Nat → Except JsError (Option AccountData)
  token : String → String → Nat → Except JsError (Option String)

/-- Body of the `withRetry` callback inside `getAvailableDomain`
(src/src/emailService.js:174-188): on HTTP success, take the first element
of the array and return its `domain` if truthy, otherwise throw
`No valid domains found in the response`. -/
def domainAttempt (env : ProviderEnv) (k : Nat) : Except JsError String :=
  match env.domains k with
  | .error e => .error e
  | .ok data =>
    match data with
    | some (some d :: _) =>
      if d = "" then .error ⟨"No valid domains found in the response", none⟩
      else .ok d
    | _ => .error ⟨"No valid domains found in the response", none⟩

/-- `EmailService.getAvailableDomain` (src/src/emailService.js:172-193):
retry the domain fetch with the service-level budget, and wrap any final
error in a plain `Error` (so the HTTP status is lost).  The `none` result of
`withRetry` (loop never ran) surfaces as the JavaScript `undefined`, which
we model as `.ok none`. -/
def getAvailableDomain (env : ProviderEnv) (maxRetries retryDelay : Nat) :
    Except JsError (Option String) :=
  match (withRetry (domainAttempt env) maxRetries retryDelay).result with
  | some (.ok d) => .ok (some d)
  | some (.error e) =>
    .error ⟨"Unable to retrieve available email domains: " ++ e.message, none⟩
  | none => .ok none

/-- Result object of a successful `createEmailAddress`
(src/src/emailService.js:139-144). -/
structure CreateResult where
  id : String
  address : String
  token : String
  password : String
deriving Repr, DecidableEq

/-- Body of the `withRetry` callback inside `createEmailAddress`
(src/src/emailService.js:98-144): POST `/accounts`, fail with
`Invalid account creation response` unless `data` and `data.id` are truthy;
POST `/token`, fail with `Invalid token response` unless `data` and
`data.token` are truthy; return `{id, address, token, password}`.  The
fixed 1s pacing sleeps have no observable effect in this model. -/
def createAttempt (env : ProviderEnv) (address password : String) (k : Nat) :
    Except JsError CreateResult :=
  match env.accounts address password k with
  | .error e => .error e
  | .ok acct =>
    match acct with
    | none => .error ⟨"Invalid account creation response", none⟩
    | some a =>
      if a.id = "" then .error ⟨"Invalid account creation response", none⟩
      else
        match env.token address password k with
        | .error e => .error e
        | .ok tok? =>
          match tok? with
          | none => .error ⟨"Invalid token response", none⟩
          | some t =>
            if t = "" then .error ⟨"Invalid token response", none⟩
            else .ok ⟨a.id, a.address, t, password⟩

/-- The random local-part synthesis in `createEmailAddress`
(src/src/emailService.js:89-93): `length = floor(random()*5) + 12` (the
random draw is the `lenR : Fin 5`) and each character is
`fromCharCode(97 + floor(random()*26))` (the draws are `pick`). -/
def generateLocalPart (lenR : Fin 5) (pick : Nat → Fin 26) : String :=
  String.mk ((List.range (12 + lenR.val)).map (fun i => Char.ofNat (97 + (pick i).val)))

/-- `EmailService.createEmailAddress(password)`
(src/src/emailService.js:80-166): fetch a domain (throwing
`Failed to retrieve a valid email domain` if it is falsy), synthesize
`localPart@domain`, run the account+token block under
`withRetry(..., {retryDelay: 3000, maxRetries: 5})`, and translate any
escaping error through the catch block (`mapCreateError`).  `maxRetries`
and `retryDelay` are the service-level defaults used by
`getAvailableDomain`. -/
def createEmailAddress (env : ProviderEnv) (lenR : Fin 5) (pick : Nat → Fin 26)
    (maxRetries retryDelay : Nat) (password : String) : Except ErrorKind CreateResult :=
  let attempt : Except JsError CreateResult :=
    match getAvailableDomain env maxRetries retryDelay with
    | .error e => .error e
    | .ok dom? =>
      match dom? with
      | none => .error ⟨"Failed to retrieve a valid email domain", none⟩
      | some domain =>
        if domain = "" then .error ⟨"Failed to retrieve a valid email domain", none⟩
        else
          let address := generateLocalPart lenR pick ++ "@" ++ domain
          match (withRetry (createAttempt env address password) 5 3000).result with
          | some r => r
          -- unreachable filler: with maxRetries = 5 the loop always runs.
          | none => .error ⟨"unreachable", none⟩
  match attempt with
  | .ok r => .ok r
  | .error e => .error (mapCreateError e)

/-! ## EmailService: message fetching and the shared bearer-token header -/

/-- One HTTP request as issued by the axios client: the path and the value
of the client-wide default `Authorization` header at the moment the request
goes out (`none` when the header is absent). -/
structure ReqEvent where
  path : String
  authHeader : Option String
deriving Repr, DecidableEq

/-- Observable outcome of one `getEmails`/`getEmailContent` call: the final
state of the client-wide `Authorization` default header, the returned value
or thrown error, and the requests issued. -/
structure CallOut (α : Type) where
  header : Option String
  result : Except String α
  events : List ReqEvent
deriving Repr

/-- `setAuthToken` builds the header by template interpolation, so a missing
token becomes the literal string `undefined`
(src/src/emailService.js:33-35). -/
def bearer (tok? : Option String) : String :=
  "Bearer " ++ tok?.getD "undefined"

/-- A provider message summary as read from a `hydra:member` element
(src/src/emailService.js:252-260); `from`/`to` are kept abstract as
strings. -/
structure MsgData where
  id : String
  msgFrom : String
  msgTo : String
  subject : String
  intro : String
  hasAttachments : Bool
  createdAt : String
deriving Repr, DecidableEq

/-- The summary object `getEmails` maps each message to
(src/src/emailService.js:252-260): `receivedDate` is the provider
`createdAt`. -/
structure EmailSummary where
  id : String
  msgFrom : String
  msgTo : String
  subject : String
  intro : String
  hasAttachments : Bool
  receivedDate : String
deriving Repr, DecidableEq

/-- src/src/emailService.js:252-260. -/
def toSummary (m : MsgData) : EmailSummary :=
  ⟨m.id, m.msgFrom, m.msgTo, m.subject, m.intro, m.hasAttachments, m.createdAt⟩

/-- `GET /messages` response `data`: `hydraMember = none` models a body
whose `hydra:member` field is missing or not an array. -/
structure MessagesBody where
  hydraMember : Option (List MsgData)
deriving Repr, DecidableEq

/-- `EmailService.getEmails(address, password)`
(src/src/emailService.js:226-268).  `tokenResp` is the `POST /token`
outcome, its payload being `authResponse.data` reduced to the `token` field
(outer `none` = falsy `data`, which makes the `.token` access throw);
`messagesResp` is the `GET /messages` outcome; `s0` is the default
`Authorization` header when the call starts.  The body authenticates, sets
the header, fetches messages, clears the header, and maps `hydra:member`;
the catch block clears the header and rethrows a wrapped error. -/
def getEmails (tokenResp : Except JsError (Option (Option String)))
    (messagesResp : Except JsError (Option MessagesBody))
    (s0 : Option String) : CallOut (List EmailSummary) :=
  let ev1 : ReqEvent := ⟨"POST /token", s0⟩
  match tokenResp with
  | .error e => ⟨none, .error ("Failed to fetch emails: " ++ e.message), [ev1]⟩
  | .ok data? =>
    match data? with
    | none =>
      -- `authResponse.data.token` throws a TypeError, caught below.
      ⟨none, .error ("Failed to fetch emails: " ++
          "Cannot read property token of undefined"), [ev1]⟩
    | some tok? =>
      let s1 : Option String := some (bearer tok?)
      let ev2 : ReqEvent := ⟨"GET /messages", s1⟩
      match messagesResp with
      | .error e => ⟨none, .error ("Failed to fetch emails: " ++ e.message), [ev1, ev2]⟩
      | .ok body? =>
        match body? with
        | some body =>
          match body.hydraMember with
          | some msgs => ⟨none, .ok (msgs.map toSummary), [ev1, ev2]⟩
          | none => ⟨none, .ok [], [ev1, ev2]⟩
        | none => ⟨none, .ok [], [ev1, ev2]⟩

/-- A full message body as read from `GET /messages/{id}`
(src/src/emailService.js:301-310). -/
structure MsgContent where
  id : String
  msgFrom : String
  msgTo : String
  subject : String
  text : String
  html : String
  attachments : List String
  createdAt : String
deriving Repr, DecidableEq

/-- `EmailService.getEmailContent(messageId, address, password)`
(src/src/emailService.js:277-315): same authenticate/set/fetch/clear shape
as `getEmails`; a falsy `response.data` throws
`Invalid response from server` after the header was already cleared, and
the catch block clears it again and wraps the message. -/
def getEmailContent (tokenResp : Except JsError (Option (Option String)))
    (contentResp : Except JsError (Option MsgContent))
    (s0 : Option String) : CallOut MsgContent :=
  let ev1 : ReqEvent := ⟨"POST /token", s0⟩
  match tokenResp with
  | .error e => ⟨none, .error ("Failed to fetch email content: " ++ e.message), [ev1]⟩
  | .ok data? =>
    match data? with
    | none =>
      ⟨none, .error ("Failed to fetch email content: " ++
          "Cannot read property token of undefined"), [ev1]⟩
    | some tok? =>
      let s1 : Option String := some (bearer tok?)
      let ev2 : ReqEvent := ⟨"GET /messages/id", s1⟩
      match contentResp with
      | .error e =>
        ⟨none, .error ("Failed to fetch email content: " ++ e.message), [ev1, ev2]⟩
      | .ok body? =>
        match body? with
        | none =>
          ⟨none, .error ("Failed to fetch email content: " ++
              "Invalid response from server"), [ev1, ev2]⟩
        | some body => ⟨none, .ok body, [ev1, ev2]⟩

/-! ## EmailService: deletion calls -/

/-- `EmailService.deleteEmail(emailId, token)`
(src/src/emailService.js:323-340): an empty (falsy) id or token throws
`Email ID and token are required` before `withRetry` is entered; otherwise
the DELETE is retried and `true` returned.  The second component counts the
attempts actually issued (network requests).  `none` models the
JavaScript `undefined` a fallen-through loop would return. -/
def deleteEmail (emailId token : String) (attempts : Nat → Except JsError Unit)
    (maxRetries retryDelay : Nat) : Option (Except String Bool) × Nat :=
  if emailId = "" ∨ token = "" then
    (some (.error "Failed to delete email: Email ID and token are required"), 0)
  else
    let r := withRetry (fun k => (attempts k).map (fun _ => true)) maxRetries retryDelay
    match r.result with
    | some (.ok b) => (some (.ok b), r.calls)
    | some (.error e) => (some (.error ("Failed to delete email: " ++ e.message)), r.calls)
    | none => (none, r.calls)

/-- `EmailService.deleteAccount(accountId, token)`
(src/src/emailService.js:348-365): same guard with the
`Account ID and token are required` message. -/
def deleteAccount (accountId token : String) (attempts : Nat → Except JsError Unit)
    (maxRetries retryDelay : Nat) : Option (Except String Bool) × Nat :=
  if accountId = "" ∨ token = "" then
    (some (.error "Failed to delete account: Account ID and token are required"), 0)
  else
    let r := withRetry (fun k => (attempts k).map (fun _ => true)) maxRetries retryDelay
    match r.result with
    | some (.ok b) => (some (.ok b), r.calls)
    | some (.error e) => (some (.error ("Failed to delete account: " ++ e.message)), r.calls)
    | none => (none, r.calls)

/-! ## StorageService -/

/-- A stored address record (the JSON objects in `addresses.json`).
Timestamps are naturals; `payload` carries every metadata field other than
the four the store manages itself. -/
structure AddressRecord where
  address : String
  createdAt : Nat
  updatedAt : Nat
  expiresAt : Nat
  payload : List (String × String)
deriving Repr, DecidableEq

/-- The `metadata` argument of `saveAddress`, split by how the object
spread `{ address, ...metadata, expiresAt, updatedAt }` treats its keys:
an `address` key overrides the `address` parameter, a `createdAt` key
rides along (and on update overwrites the stored one), and all other keys
are opaque payload.  `expiresAt`/`updatedAt` keys in the metadata are
irrelevant because the literal lists them after the spread. -/
structure Metadata where
  address? : Option String
  createdAt? : Option Nat
  payload : List (String × String)
deriving Repr, DecidableEq

/-- JavaScript object spread `{...old, ...new}` restricted to payload keys:
keys of `new` override, other keys of `old` survive. -/
def mergeFields (old new : List (String × String)) : List (String × String) :=
  old.filter (fun p => new.all (fun q => q.1 != p.1)) ++ new

/-- The record written over an existing one:
`addresses[existingIndex] = { ...addresses[existingIndex], ...addressData }`
with `addressData = { address, ...metadata, expiresAt: now + window,
updatedAt: now }` (second file of src/unnamed/part_000, lines 326-345). -/
def updatedRecord (now window : Nat) (address : String) (m : Metadata)
    (old : AddressRecord) : AddressRecord :=
  { address := m.address?.getD address
    createdAt := m.createdAt?.getD old.createdAt
    updatedAt := now
    expiresAt := now + window
    payload := mergeFields old.payload m.payload }

/-- The record pushed when the address is new: `addressData.createdAt =
now` overwrites any `createdAt` the metadata carried (lines 346-349). -/
def newRecord (now window : Nat) (address : String) (m : Metadata) : AddressRecord :=
  { address := m.address?.getD address
    createdAt := now
    updatedAt := now
    expiresAt := now + window
    payload := m.payload }

/-- `StorageService.saveAddress(address, metadata)` (lines 323-353) acting
on the decoded store: `findIndex(item => item.address === address)`, update
the first match in place, else push the new record at the end.  `window` is
the expiration window (`expirationDays`, in the same time unit as the
timestamps). -/
def saveAddress (now window : Nat) (address : String) (m : Metadata) :
    List AddressRecord → List AddressRecord
  | [] => [newRecord now window address m]
  | r :: rest =>
    if r.address = address then updatedRecord now window address m r :: rest
    else r :: saveAddress now window address m rest

/-- `StorageService.getAddresses(includeExpired)` (lines 371-383): return
everything, or filter to `new Date(address.expiresAt) > now`. -/
def getAddresses (store : List AddressRecord) (now : Nat)
    (includeExpired : Bool) : List AddressRecord :=
  if includeExpired then store
  else store.filter (fun r => decide (now < r.expiresAt))

/-- `StorageService.cleanupExpired()` (lines 406-422): keep the records
with `expiresAt > now`, rewrite the file only when something was dropped,
return the removed count.  First component: the returned count; second:
the store contents afterwards. -/
def cleanupExpired (store : List AddressRecord) (now : Nat) :
    Nat × List AddressRecord :=
  let validAddresses := store.filter (fun r => decide (now < r.expiresAt))
  let removedCount := store.length - validAddresses.length
  (removedCount, if 0 < removedCount then validAddresses else store)

/-! ## Claim C2: retry backoff -/

/-- The scenario of the spec's retry/backoff test: a call that fails with a
rate-limit signal on attempts 1 and 2 and succeeds on attempt 3. -/
def rateLimitScenario : Nat → Except JsError Nat := fun k =>
  if k ≤ 2 then .error ⟨"Request failed with status code 429", some 429⟩ else .ok 42

/-- C2: on each non-final failed attempt `k`, the wait before the next
attempt is `retryDelay * 2^(k-1)` when the failure carried HTTP status 429
and exactly `retryDelay` otherwise; in particular, with `maxRetries = 3`
and a call that is rate-limited on attempts 1 and 2 and succeeds on
attempt 3, the call succeeds and the delays are `[retryDelay,
retryDelay * 2]`. -/
theorem C2_withRetry_backoff :
    (∀ (α : Type) (apiCall : Nat → Except JsError α)
        (maxRetries retryDelay k fuel : Nat) (e : JsError),
        apiCall k = Except.error e → 1 ≤ k → k < maxRetries →
        (withRetryLoop apiCall maxRetries retryDelay k (fuel + 1)).delays =
          (if e.status? = some 429 then retryDelay * 2 ^ (k - 1) else retryDelay) ::
            (withRetryLoop apiCall maxRetries retryDelay (k + 1) fuel).delays)
  ∧ (∀ retryDelay : Nat,
      (withRetry rateLimitScenario 3 retryDelay).result = some (Except.ok 42) ∧
      (withRetry rateLimitScenario 3 retryDelay).delays = [retryDelay, retryDelay * 2]) := by
  constructor
  · intro α apiCall maxRetries retryDelay k fuel e hcall hk1 hk2
    rw [withRetryLoop, if_neg (by omega), hcall]
    simp only [if_neg (show ¬ k = maxRetries by omega)]
  · intro retryDelay
    constructor
    · rfl
    · show [retryDelay * 2 ^ 0, retryDelay * 2 ^ 1] = [retryDelay, retryDelay * 2]
      norm_num

/-- Witness for C2: the delay recorded after the failed first attempt of the
scenario with `retryDelay = 1000` is the fixed-base `1000 * 2^0 = 1000`. -/
theorem C2_witness :
    (withRetryLoop rateLimitScenario 3 1000 1 3).delays =
      1000 :: (withRetryLoop rateLimitScenario 3 1000 2 2).delays := by
  have h := C2_withRetry_backoff.1 Nat rateLimitScenario 3 1000 1 2
    ⟨"Request failed with status code 429", some 429⟩ rfl (by decide) (by decide)
  simpa using h

/-! ## Claim C4: retry exhaustion -/

/-- If every attempt from `attempt` to `maxRetries` fails, the loop ends by
throwing the aggregated error built from the attempt count and the message
of the error thrown at the last attempt. -/
theorem withRetryLoop_exhaust {α : Type} (apiCall : Nat → Except JsError α)
    (maxRetries retryDelay : Nat) (fuel : Nat) :
    ∀ attempt, 1 ≤ attempt → attempt ≤ maxRetries → maxRetries - attempt < fuel →
      (∀ j, attempt ≤ j → j ≤ maxRetries → ∃ e, apiCall j = Except.error e) →
      ∃ e, apiCall maxRetries = Except.error e ∧
        (withRetryLoop apiCall maxRetries retryDelay attempt fuel).result =
          some (Except.error ⟨"Operation failed after " ++ toString maxRetries ++
              " attempts: " ++ e.message, none⟩) := by
  induction fuel with
  | zero => intro attempt _ _ h3 _; omega
  | succ fuel ih =>
    intro attempt h1 h2 _ hfail
    obtain ⟨e, he⟩ := hfail attempt le_rfl h2
    by_cases hlast : attempt = maxRetries
    · subst hlast
      refine ⟨e, he, ?_⟩
      rw [withRetryLoop, if_neg (by omega), he]
      simp
    · obtain ⟨e2, he2, hres⟩ := ih (attempt + 1) (by omega) (by omega) (by omega)
        (fun j hj1 hj2 => hfail j (by omega) hj2)
      refine ⟨e2, he2, ?_⟩
      rw [withRetryLoop, if_neg (by omega), he]
      simpa [hlast] using hres

/-- C4: when the underlying operation fails on all `maxRetries ≥ 1`
attempts, `withRetry` terminates by throwing (not hanging, not returning
the `undefined` of a fallen-through loop) an aggregated error embedding the
attempt count and the last underlying error message. -/
theorem C4_withRetry_exhaustion (α : Type) (apiCall : Nat → Except JsError α)
    (maxRetries retryDelay : Nat) (h1 : 1 ≤ maxRetries)
    (hfail : ∀ j, 1 ≤ j → j ≤ maxRetries → ∃ e, apiCall j = Except.error e) :
    ∃ e, apiCall maxRetries = Except.error e ∧
      (withRetry apiCall maxRetries retryDelay).result =
        some (Except.error ⟨"Operation failed after " ++ toString maxRetries ++
            " attempts: " ++ e.message, none⟩) :=
  withRetryLoop_exhaust apiCall maxRetries retryDelay maxRetries 1 le_rfl h1
    (by omega) hfail

/-- A provider that answers HTTP 429 on every attempt. -/
def alwaysRateLimited : Nat → Except JsError Nat := fun _ =>
  .error ⟨"Request failed with status code 429", some 429⟩

/-- Witness for C4: a provider returning HTTP 429 on every attempt with
`maxRetries = 3` surfaces the exhausted-retries failure. -/
theorem C4_witness :
    ∃ e, alwaysRateLimited 3 = Except.error e ∧
      (withRetry alwaysRateLimited 3 1000).result =
        some (Except.error ⟨"Operation failed after " ++ toString 3 ++
            " attempts: " ++ e.message, none⟩) :=
  C4_withRetry_exhaustion Nat alwaysRateLimited 3 1000 (by decide)
    (fun _ _ _ => ⟨_, rfl⟩)

/-! ## Claim C10: delete guards -/

/-- C10: `deleteEmail`/`deleteAccount` with a missing (falsy) id or token
fail immediately with the `... required` error, issuing zero network
requests and never entering the retry loop. -/
theorem C10_delete_guard (theId token : String)
    (attempts : Nat → Except JsError Unit) (maxRetries retryDelay : Nat)
    (h : theId = "" ∨ token = "") :
    deleteEmail theId token attempts maxRetries retryDelay =
      (some (Except.error "Failed to delete email: Email ID and token are required"), 0)
  ∧ deleteAccount theId token attempts maxRetries retryDelay =
      (some (Except.error "Failed to delete account: Account ID and token are required"), 0) := by
  constructor
  · rw [deleteEmail, if_pos h]
  · rw [deleteAccount, if_pos h]

/-- Witness for C10: an empty email/account id with a non-empty token. -/
theorem C10_witness :
    deleteEmail "" "tok" (fun _ => Except.ok ()) 3 1000 =
      (some (Except.error "Failed to delete email: Email ID and token are required"), 0)
  ∧ deleteAccount "" "tok" (fun _ => Except.ok ()) 3 1000 =
      (some (Except.error "Failed to delete account: Account ID and token are required"), 0) :=
  C10_delete_guard "" "tok" (fun _ => Except.ok ()) 3 1000 (Or.inl rfl)

/-! ## Claim C1: saveAddress is an upsert -/

/-- Under a store with unique addresses and a metadata object that carries
no `address` key, saving leaves exactly one record keyed by the saved
address. -/
theorem saveAddress_count (now window : Nat) (address : String) (m : Metadata)
    (ha : m.address? = none) :
    ∀ store : List AddressRecord, (store.map AddressRecord.address).Nodup →
      ((saveAddress now window address m store).filter
        (fun r => decide (r.address = address))).length = 1 := by
  intro store
  induction store with
  | nil =>
    intro _
    simp [saveAddress, newRecord, ha]
  | cons r rest ih =>
    intro hnd
    rw [List.map_cons, List.nodup_cons] at hnd
    by_cases hr : r.address = address
    · rw [saveAddress, if_pos hr]
      have hpred : decide ((updatedRecord now window address m r).address = address) = true := by
        simp [updatedRecord, ha]
      rw [List.filter_cons, if_pos hpred, List.length_cons]
      have : (rest.filter (fun x => decide (x.address = address))) = [] := by
        rw [List.filter_eq_nil_iff]
        intro x hx
        simp only [decide_eq_true_eq]
        intro hxa
        exact hnd.1 (by rw [hr, ← hxa]; exact List.mem_map_of_mem _ hx)
      rw [this]
      rfl
    · rw [saveAddress, if_neg hr]
      have hpred : decide (r.address = address) = false := by simpa using hr
      rw [List.filter_cons, if_neg (by simp [hpred])]
      exact ih hnd.2

/-- Under the same side conditions plus a metadata object without a
`createdAt` key, the record stored under the saved address has
`expiresAt = now + window`, `updatedAt = now`, and `createdAt` equal to the
previously stored `createdAt` (or `now` when the address is new). -/
theorem saveAddress_fields (now window : Nat) (address : String) (m : Metadata)
    (ha : m.address? = none) (hc : m.createdAt? = none) :
    ∀ store : List AddressRecord, (store.map AddressRecord.address).Nodup →
      ∀ r ∈ saveAddress now window address m store, r.address = address →
        r.expiresAt = now + window ∧ r.updatedAt = now ∧
        r.createdAt = ((store.find? (fun x => decide (x.address = address))).map
            AddressRecord.createdAt).getD now := by
  intro store
  induction store with
  | nil =>
    intro _ r hr _
    simp only [saveAddress, List.mem_singleton] at hr
    subst hr
    simp [newRecord, hc]
  | cons x rest ih =>
    intro hnd r hr hra
    rw [List.map_cons, List.nodup_cons] at hnd
    by_cases hx : x.address = address
    · rw [saveAddress, if_pos hx] at hr
      have hfind : (x :: rest).find? (fun y => decide (y.address = address)) = some x :=
        List.find?_cons_of_pos _ (by simp [hx])
      rcases List.mem_cons.1 hr with h1 | h2
      · subst h1
        refine ⟨rfl, rfl, ?_⟩
        rw [hfind]
        simp [updatedRecord, hc]
      · exact absurd (by rw [hx, ← hra]; exact List.mem_map_of_mem _ h2) hnd.1
    · rw [saveAddress, if_neg hx] at hr
      have hfind : (x :: rest).find? (fun y => decide (y.address = address)) =
          rest.find? (fun y => decide (y.address = address)) :=
        List.find?_cons_of_neg _ (by simp [hx])
      rcases List.mem_cons.1 hr with h1 | h2
      · subst h1; exact absurd hra hx
      · rw [hfind]; exact ih hnd.2 r h2 hra

/-- C1 counterexample: the claim promises the behaviour "regardless of the
metadata contents", but the object spread in `saveAddress` lets a metadata
`address` or `createdAt` key overwrite the stored key and creation
timestamp.  Save `"a"` with plain metadata at time 0, then save `"a"` again
at time 10 with metadata `{address: "b", createdAt: 5}`: afterwards the
store holds zero records with address `"a"` (the claim says exactly one)
and the single record's `createdAt` is 5, not the 0 of the first save. -/
theorem C1_counterexample :
    ((saveAddress 10 7 "a" ⟨some "b", some 5, []⟩
        (saveAddress 0 7 "a" ⟨none, none, [("k", "v")]⟩ [])).filter
        (fun r => decide (r.address = "a"))).length = 0
  ∧ (saveAddress 10 7 "a" ⟨some "b", some 5, []⟩
        (saveAddress 0 7 "a" ⟨none, none, [("k", "v")]⟩ [])).map
        AddressRecord.createdAt = [5] := by
  constructor <;> rfl

/-- C1 (amended): for a store whose addresses are unique and a metadata
object carrying no `address` and no `createdAt` key, `saveAddress` is an
upsert keyed by `address`: afterwards exactly one record bears that
address, and that record has `expiresAt = now + window`, `updatedAt = now`,
and `createdAt` equal to the first save's `createdAt` (or `now` when the
address was not present). -/
theorem C1_saveAddress_upsert (store : List AddressRecord) (now window : Nat)
    (address : String) (m : Metadata)
    (hnd : (store.map AddressRecord.address).Nodup)
    (ha : m.address? = none) (hc : m.createdAt? = none) :
    ((saveAddress now window address m store).filter
        (fun r => decide (r.address = address))).length = 1
  ∧ ∀ r ∈ saveAddress now window address m store, r.address = address →
      r.expiresAt = now + window ∧ r.updatedAt = now ∧
      r.createdAt = ((store.find? (fun x => decide (x.address = address))).map
          AddressRecord.createdAt).getD now :=
  ⟨saveAddress_count now window address m ha store hnd,
   saveAddress_fields now window address m ha hc store hnd⟩

/-- Witness for C1: re-saving `"a"` over a one-record store with plain
metadata keeps exactly one `"a"` record. -/
theorem C1_witness :
    ((saveAddress 10 7 "a" ⟨none, none, [("p", "q")]⟩
        [⟨"a", 0, 0, 7, []⟩]).filter (fun r => decide (r.address = "a"))).length = 1 :=
  (C1_saveAddress_upsert [⟨"a", 0, 0, 7, []⟩] 10 7 "a" ⟨none, none, [("p", "q")]⟩
    (by decide) rfl rfl).1

/-! ## Claim C5: expiration filter of getAddresses -/

/-- C5: `getAddresses` with `includeExpired = false` keeps a record exactly
when `now < expiresAt`, and a record whose `expiresAt` equals `now` is
excluded.  `now` is the call-time clock value, a parameter of the model. -/
theorem C5_getAddresses_filter (store : List AddressRecord) (now : Nat)
    (r : AddressRecord) :
    (r ∈ getAddresses store now false ↔ r ∈ store ∧ now < r.expiresAt)
  ∧ (r.expiresAt = now → r ∉ getAddresses store now false) := by
  constructor
  · simp [getAddresses, List.mem_filter]
  · intro heq hmem
    simp [getAddresses, List.mem_filter] at hmem
    omega

/-- Witness for C5: a record expiring exactly now is filtered out. -/
theorem C5_witness :
    (⟨"a", 0, 0, 5, []⟩ : AddressRecord) ∉ getAddresses [⟨"a", 0, 0, 5, []⟩] 5 false :=
  (C5_getAddresses_filter [⟨"a", 0, 0, 5, []⟩] 5 ⟨"a", 0, 0, 5, []⟩).2 rfl

/-! ## Claim C6: cleanupExpired -/

/-- Dropping the kept part of a filter from a list's length counts the
complement. -/
theorem length_sub_filter {α : Type} (p : α → Bool) (l : List α) :
    l.length - (l.filter p).length = (l.filter (fun a => ! p a)).length := by
  induction l with
  | nil => rfl
  | cons a l ih =>
    have hle := List.length_filter_le p l
    by_cases h : p a <;> simp [List.filter_cons, h] <;> omega

/-- A filter that keeps the full length keeps the whole list. -/
theorem filter_eq_self_of_length {α : Type} (p : α → Bool) (l : List α)
    (h : (l.filter p).length = l.length) : l.filter p = l := by
  induction l with
  | nil => rfl
  | cons a l ih =>
    have hle := List.length_filter_le p l
    by_cases hpa : p a
    · simp only [List.filter_cons, if_pos hpa, List.length_cons,
        Nat.add_right_cancel_iff] at h ⊢
      rw [ih h]
    · rw [List.filter_cons, if_neg (by simp [hpa])] at h
      simp only [List.length_cons] at h
      omega

/-- C6: `cleanupExpired` returns the number of records with
`expiresAt ≤ now` and leaves the store holding exactly the records with
`now < expiresAt`; on a 3-record store with 2 expired records it returns 2
and `getAddresses(includeExpired = true)` then yields exactly 1 record. -/
theorem C6_cleanupExpired_spec :
    (∀ (store : List AddressRecord) (now : Nat),
        (cleanupExpired store now).1 =
          (store.filter (fun r => decide (r.expiresAt ≤ now))).length
      ∧ (cleanupExpired store now).2 =
          store.filter (fun r => decide (now < r.expiresAt)))
  ∧ ((cleanupExpired [⟨"a", 0, 0, 5, []⟩, ⟨"b", 0, 0, 3, []⟩,
        ⟨"c", 0, 0, 20, []⟩] 10).1 = 2
      ∧ (getAddresses (cleanupExpired [⟨"a", 0, 0, 5, []⟩, ⟨"b", 0, 0, 3, []⟩,
          ⟨"c", 0, 0, 20, []⟩] 10).2 10 true).length = 1) := by
  constructor
  · intro store now
    constructor
    · show store.length - (store.filter (fun r => decide (now < r.expiresAt))).length = _
      rw [length_sub_filter]
      have : (fun (a : AddressRecord) => ! decide (now < a.expiresAt)) =
          (fun r => decide (r.expiresAt ≤ now)) := by
        funext a
        by_cases h : now < a.expiresAt <;> simp [h] <;> omega
      rw [this]
    · show (if 0 < store.length -
          (store.filter (fun r => decide (now < r.expiresAt))).length then _ else store) = _
      by_cases h : 0 < store.length -
          (store.filter (fun r => decide (now < r.expiresAt))).length
      · rw [if_pos h]
      · rw [if_neg h]
        have hle := List.length_filter_le (fun r => decide (now < r.expiresAt)) store
        exact (filter_eq_self_of_length _ _ (by omega)).symm
  · exact ⟨rfl, rfl⟩

/-! ## Claim C7: generated local-part shape -/

/-- C7: for every random outcome the generated local-part has length in
[12,16] and consists only of lowercase ASCII letters (it matches
`[a-z]{12,16}` as a whole string), and every length in [12,16] is
attainable. -/
theorem C7_generateLocalPart_shape :
    (∀ (lenR : Fin 5) (pick : Nat → Fin 26),
        12 ≤ (generateLocalPart lenR pick).length
      ∧ (generateLocalPart lenR pick).length ≤ 16
      ∧ ∀ c ∈ (generateLocalPart lenR pick).data, 'a' ≤ c ∧ c ≤ 'z')
  ∧ (∀ n : Nat, 12 ≤ n → n ≤ 16 → ∀ pick : Nat → Fin 26,
      ∃ lenR : Fin 5, (generateLocalPart lenR pick).length = n) := by
  have hchar : ∀ k : Fin 26,
      'a' ≤ Char.ofNat (97 + k.val) ∧ Char.ofNat (97 + k.val) ≤ 'z' := by decide
  have hlen : ∀ (lenR : Fin 5) (pick : Nat → Fin 26),
      (generateLocalPart lenR pick).length = 12 + lenR.val := by
    intro lenR pick
    simp [generateLocalPart, String.length]
  constructor
  · intro lenR pick
    refine ⟨by rw [hlen]; omega, by rw [hlen]; have := lenR.isLt; omega, ?_⟩
    intro c hc
    simp only [generateLocalPart, List.mem_map, List.mem_range] at hc
    obtain ⟨i, _, rfl⟩ := hc
    exact hchar (pick i)
  · intro n h1 h2 pick
    refine ⟨⟨n - 12, by omega⟩, ?_⟩
    rw [hlen]
    show 12 + (n - 12) = n
    omega

/-- Witness for C7: length 13 is attainable. -/
theorem C7_witness :
    ∃ lenR : Fin 5, (generateLocalPart lenR (fun _ => (0 : Fin 26))).length = 13 :=
  C7_generateLocalPart_shape.2 13 (by decide) (by decide) (fun _ => 0)

/-! ## Claim C8: bearer-token header lifecycle -/

/-- C8: both message-fetching calls finish with the client-wide
`Authorization` default header absent, on success and on every error path,
and when authentication produced a token object the authenticated request
goes out with the bearer header set immediately before it. -/
theorem C8_authToken_cleared :
    (∀ (tokenResp : Except JsError (Option (Option String)))
        (messagesResp : Except JsError (Option MessagesBody)) (s0 : Option String),
        (getEmails tokenResp messagesResp s0).header = none)
  ∧ (∀ (tokenResp : Except JsError (Option (Option String)))
        (contentResp : Except JsError (Option MsgContent)) (s0 : Option String),
        (getEmailContent tokenResp contentResp s0).header = none)
  ∧ (∀ (messagesResp : Except JsError (Option MessagesBody)) (s0 tok? : Option String),
        ((getEmails (Except.ok (some tok?)) messagesResp s0).events)[1]? =
          some ⟨"GET /messages", some (bearer tok?)⟩)
  ∧ (∀ (contentResp : Except JsError (Option MsgContent)) (s0 tok? : Option String),
        ((getEmailContent (Except.ok (some tok?)) contentResp s0).events)[1]? =
          some ⟨"GET /messages/id", some (bearer tok?)⟩) := by
  refine ⟨?_, ?_, ?_, ?_⟩
  · intro tokenResp messagesResp s0
    rcases tokenResp with e | d
    · rfl
    rcases d with _ | tok?
    · rfl
    rcases messagesResp with e2 | b
    · rfl
    rcases b with _ | ⟨hm⟩
    · rfl
    rcases hm with _ | msgs <;> rfl
  · intro tokenResp contentResp s0
    rcases tokenResp with e | d
    · rfl
    rcases d with _ | tok?
    · rfl
    rcases contentResp with e2 | b
    · rfl
    rcases b with _ | body <;> rfl
  · intro messagesResp s0 tok?
    rcases messagesResp with e2 | b
    · rfl
    rcases b with _ | ⟨hm⟩
    · rfl
    rcases hm with _ | msgs <;> rfl
  · intro contentResp s0 tok?
    rcases contentResp with e2 | b
    · rfl
    rcases b with _ | body <;> rfl

/-- Witness for C8: a concrete authenticated `getEmails` call issues the
messages request with the bearer header attached. -/
theorem C8_witness :
    ((getEmails (Except.ok (some (some "tok"))) (Except.ok none) none).events)[1]? =
      some ⟨"GET /messages", some (bearer (some "tok"))⟩ :=
  C8_authToken_cleared.2.2.1 (Except.ok none) none (some "tok")

/-! ## Claim C9: malformed message-collection wrapper -/

/-- C9: after a successful authentication, a messages response whose body
is falsy or lacks an array-valued `hydra:member` makes `getEmails` return
the empty list rather than fail. -/
theorem C9_getEmails_malformed_empty
    (messagesResp : Except JsError (Option MessagesBody))
    (s0 tok? : Option String) (body? : Option MessagesBody)
    (hresp : messagesResp = Except.ok body?)
    (hmal : body? = none ∨ ∃ b, body? = some b ∧ b.hydraMember = none) :
    (getEmails (Except.ok (some tok?)) messagesResp s0).result = Except.ok [] := by
  subst hresp
  rcases hmal with rfl | ⟨b, rfl, hb⟩
  · rfl
  · rcases b with ⟨hm⟩
    simp only at hb
    subst hb
    rfl

/-- Witness for C9: a body whose `hydra:member` is not an array. -/
theorem C9_witness :
    (getEmails (Except.ok (some (some "t"))) (Except.ok (some ⟨none⟩)) none).result =
      Except.ok [] :=
  C9_getEmails_malformed_empty (Except.ok (some ⟨none⟩)) none (some "t")
    (some ⟨none⟩) rfl (Or.inr ⟨⟨none⟩, rfl, rfl⟩)

/-! ## Claim C3: status-based error mapping of createEmailAddress -/

/-- A provider whose domain listing succeeds and whose `POST /accounts`
answers HTTP 429 on every attempt. -/
def env429 : ProviderEnv :=
  { domains := fun _ => .ok (some [some "example.com"])
    accounts := fun _ _ _ => .error ⟨"Request failed with status code 429", some 429⟩
    token := fun _ _ _ => .ok (some "tok") }

/-- C3 (code bug): `withRetry` rethrows a plain `Error` without a
`response` field, so `error.response` is never set in the catch block of
`createEmailAddress` and its status-mapping branches are unreachable.  A
provisioning call failing with HTTP 429 on every attempt surfaces the
generic `NetworkError` message instead of `RateLimited`. -/
theorem C3_create_429_surfaces_NetworkError :
    createEmailAddress env429 0 (fun _ => 0) 3 1000 "Password123!" =
      Except.error (ErrorKind.NetworkError
        ("Failed to create email address: Operation failed after 5 attempts: " ++
         "Request failed with status code 429" ++
         ". Please check your internet connection and try again."))
  ∧ createEmailAddress env429 0 (fun _ => 0) 3 1000 "Password123!" ≠
      Except.error ErrorKind.RateLimited := by
  have h1 : createEmailAddress env429 0 (fun _ => 0) 3 1000 "Password123!" =
      Except.error (ErrorKind.NetworkError
        ("Failed to create email address: Operation failed after 5 attempts: " ++
         "Request failed with status code 429" ++
         ". Please check your internet connection and try again.")) := rfl
  refine ⟨h1, ?_⟩
  rw [h1]
  simp

end TempEmail
